import Mathlib

/-!
Verification model of the market-neutral multi-pair altcoin bot.

Floats of the Python source are modelled as rationals (ℚ); the claims under
study compare exact decimal constants far from floating-point rounding, so the
rational model is faithful to every comparison they exercise.  The position
registry (a Python dict keyed by pair-leg id) is modelled as an association
list with overwrite-on-insert semantics.  External numeric libraries
(pandas-ta EMA, scipy extrema, the square root inside the rolling standard
deviation) are abstracted as oracle parameters: the claims quantify over, or
are independent of, their values.
-/

namespace PairsBot

/-- Mirror of risk_manager.PositionState (dataclass): one open leg.
Defaults `trailing_activated=False`, `best_price=0.0` as in the source. -/
structure PositionState where
  symbol : String
  side : String
  entryPrice : ℚ
  entryZscore : ℚ
  amount : ℚ
  trailingActivated : Bool := false
  bestPrice : ℚ := 0
deriving DecidableEq

/-- The RiskManager position dict `self._positions`, keyed by pair-leg id. -/
abbrev Registry := List (String × PositionState)

/-- Dict lookup `self._positions[pair_id]` / `pair_id in self._positions`. -/
def regLookup : Registry → String → Option PositionState
  | [], _ => none
  | (k, v) :: rest, key => if k = key then some v else regLookup rest key

/-- Membership test `pair_id in self._positions`. -/
def regContains (reg : Registry) (key : String) : Bool :=
  (regLookup reg key).isSome

/-- Dict assignment `self._positions[pair_id] = state` (insert or overwrite). -/
def regSet : Registry → String → PositionState → Registry
  | [], key, v => [(key, v)]
  | (k, w) :: rest, key, v =>
      if k = key then (key, v) :: rest else (k, w) :: regSet rest key v

/-- Dict removal `self._positions.pop(pair_id, None)` (idempotent). -/
def regRemove (reg : Registry) (key : String) : Registry :=
  reg.filter (fun p => p.1 != key)

/-- Configuration consumed by RiskManager (config.py defaults in
`defaultRisk`). -/
structure RiskParams where
  leverage : ℤ
  riskPerTradePct : ℚ
  maxBasketRiskPct : ℚ
  maxFundingRatePct : ℚ
  trailingStopPct : ℚ
  zscoreTrailingActivation : ℚ

/-- config.py defaults: LEVERAGE=5, RISK_PER_TRADE_PCT=1.0,
MAX_BASKET_RISK_PCT=40.0, MAX_FUNDING_RATE_PCT=0.06, TRAILING_STOP_PCT=1.5,
ZSCORE_TRAILING_ACTIVATION=0.5. -/
def defaultRisk : RiskParams :=
  { leverage := 5
    riskPerTradePct := 1
    maxBasketRiskPct := 40
    maxFundingRatePct := 6/100
    trailingStopPct := 3/2
    zscoreTrailingActivation := 1/2 }

/-- RiskManager.calc_position_size.  The Python parameter default
`risk_pct=None` and the falsy-coalescing `risk_pct or self.risk_per_trade_pct`
are modelled by an `Option ℚ` argument where both `none` and `some 0` fall
back to the configured per-trade risk. -/
def calc_position_size (rm : RiskParams) (equity price : ℚ)
    (riskPct : Option ℚ) : ℚ :=
  let r := (match riskPct with
    | none => rm.riskPerTradePct
    | some x => if x = 0 then rm.riskPerTradePct else x) / 100
  let riskPerLeg := equity * r / 2
  let stopPct : ℚ := 5/100
  let positionValue := riskPerLeg / stopPct
  let size := if price > 0 then positionValue / price else 0
  max 0 size

/-- RiskManager.check_basket_risk. -/
def check_basket_risk (rm : RiskParams)
    (equity openPositionsValue newTradeValue : ℚ) : Bool :=
  let totalExposure := openPositionsValue + newTradeValue
  let exposurePct := if equity > 0 then totalExposure / equity * 100 else 0
  exposurePct ≤ rm.maxBasketRiskPct

/-- RiskManager.check_funding_rate; `none` models the Python `None` funding
rate (always passes). -/
def check_funding_rate (rm : RiskParams) (fundingRatePct : Option ℚ)
    (side : String) : Bool :=
  match fundingRatePct with
  | none => true
  | some f =>
    if side = "long" ∧ f > rm.maxFundingRatePct then false
    else if side = "short" ∧ f < -rm.maxFundingRatePct then false
    else true

/-- RiskManager.register_position: inserts/overwrites a PositionState with the
dataclass defaults for the trailing fields. -/
def register_position (reg : Registry) (pairId symbol side : String)
    (entryPrice entryZscore amount : ℚ) : Registry :=
  regSet reg pairId
    { symbol := symbol
      side := side
      entryPrice := entryPrice
      entryZscore := entryZscore
      amount := amount }

/-- RiskManager.update_trailing.  Returns the Python return value
(`None`/`True`/`False` as `Option Bool`) together with the registry after the
in-place mutation of the looked-up PositionState.  The Python float-truthiness
tests `pos.best_price or 0` / `if pos.best_price` are modelled as `= 0`
comparisons. -/
def update_trailing (rm : RiskParams) (reg : Registry) (pairId : String)
    (currentPrice currentZscore : ℚ) : Option Bool × Registry :=
  match regLookup reg pairId with
  | none => (none, reg)
  | some pos0 =>
    let pos :=
      if |currentZscore| ≤ rm.zscoreTrailingActivation then
        if pos0.side = "long" then
          { pos0 with
              trailingActivated := true
              bestPrice := max (if pos0.bestPrice = 0 then 0 else pos0.bestPrice)
                currentPrice }
        else
          { pos0 with
              trailingActivated := true
              bestPrice := if pos0.bestPrice = 0 then currentPrice
                else min pos0.bestPrice currentPrice }
      else pos0
    let reg1 := regSet reg pairId pos
    if pos.trailingActivated = false then (none, reg1)
    else
      let stopDistance := pos.entryPrice * (rm.trailingStopPct / 100)
      if pos.side = "long" then
        (some (decide (currentPrice ≤ pos.bestPrice - stopDistance)), reg1)
      else
        (some (decide (currentPrice ≥ pos.bestPrice + stopDistance)), reg1)

/-- RiskManager.remove_position. -/
def remove_position (reg : Registry) (pairId : String) : Registry :=
  regRemove reg pairId

/-- Configuration consumed by StrategyManager (config.py defaults in
`defaultStrategy`). -/
structure StrategyParams where
  zscoreWindow : ℕ
  zscoreEntry : ℚ
  zscoreExitTp : ℚ
  zscoreExitSl : ℚ

/-- config.py defaults: ZSCORE_WINDOW=20, ZSCORE_ENTRY_THRESHOLD=1.2,
ZSCORE_EXIT_TP=0.0, ZSCORE_EXIT_SL=3.0. -/
def defaultStrategy : StrategyParams :=
  { zscoreWindow := 20
    zscoreEntry := 6/5
    zscoreExitTp := 0
    zscoreExitSl := 3 }

/-- StrategyManager.get_zscore_signal. -/
def get_zscore_signal (sp : StrategyParams) (zscore : ℚ) : Option String :=
  if zscore > sp.zscoreEntry then some "short_long"
  else if zscore < -sp.zscoreEntry then some "long_short"
  else none

/-- StrategyManager.check_exit. -/
def check_exit (sp : StrategyParams) (zscore : ℚ) : Option String :=
  if |zscore - sp.zscoreExitTp| < 1/10 then some "tp"
  else if zscore ≥ sp.zscoreExitSl ∨ zscore ≤ -sp.zscoreExitSl then some "sl"
  else none

/-- Pandas reindex-to-the-second-index plus `.ffill().bfill()` in
StrategyManager.calc_spread, for integer bar indices 0..n-1: positions inside
the first series keep their value, trailing missing positions forward-fill the
last value, and an empty first series stays entirely undefined (NaN). -/
def reindexFfillBfill (xs : List ℚ) (n : ℕ) : List (Option ℚ) :=
  match xs.getLast? with
  | none => List.replicate n none
  | some lastVal => (List.range n).map (fun i => some (xs.getD i lastVal))

/-- StrategyManager.calc_spread: close1 (reindexed/filled to close2's index)
divided by close2.  A zero divisor produces a non-finite spread value, which
the z-score stage coerces to undefined; it is modelled as `none` at source. -/
def calc_spread (closes1 closes2 : List ℚ) : List (Option ℚ) :=
  List.zipWith
    (fun o c => match o with
      | none => none
      | some x => if c = 0 then none else some (x / c))
    (reindexFfillBfill closes1 closes2.length) closes2

/-- Pandas `series.rolling(w)` window ending at index `i`: defined only when
`i + 1 ≥ w` and all `w` entries of the window are defined (min_periods = w). -/
def rollingWindow (xs : List (Option ℚ)) (w i : ℕ) : Option (List ℚ) :=
  if i + 1 < w then none
  else
    let seg := (xs.take (i + 1)).drop (i + 1 - w)
    if seg.all (fun o => o.isSome) then some (seg.map (fun o => o.getD 0))
    else none

/-- StrategyManager.calc_zscore: rolling mean and sample standard deviation
(pandas ddof = 1) over window `w`, then `(x - mean) / std` with
`±inf` replaced by NaN (`none`).  The square root inside the standard
deviation is an abstract oracle `sqrtFn`; a zero standard deviation (zero
variance, `sqrtFn` applied to 0 returning 0) yields an undefined z-score
exactly as the `replace([inf, -inf], nan)` of the source does.  A window of
size ≤ 1 leaves the sample standard deviation undefined (NaN). -/
def calc_zscore (sqrtFn : ℚ → ℚ) (w : ℕ) (xs : List (Option ℚ)) :
    List (Option ℚ) :=
  (List.range xs.length).map (fun i =>
    if w ≤ 1 then none
    else
      match rollingWindow xs w i with
      | none => none
      | some seg =>
        let m := seg.sum / (w : ℚ)
        let v := (seg.map (fun x => (x - m) ^ 2)).sum / ((w : ℚ) - 1)
        let s := sqrtFn v
        if s = 0 then none else some ((seg.getLastD 0 - m) / s))

/-- The filter toggles USE_EMA_FILTER / USE_RSI_FILTER / USE_OI_FILTER from
config.py. -/
structure FilterFlags where
  useEmaFilter : Bool
  useRsiFilter : Bool
  useOiFilter : Bool
deriving DecidableEq

/-- The dict returned by StrategyManager.analyze_pair (its claim-relevant
fields). -/
structure PairAnalysis where
  signal : Option String
  zscore : ℚ
  emaOk : Bool
  rsiOk : Bool
  oiOk : Bool
  exit : Option String
deriving DecidableEq

/-- StrategyManager.analyze_pair.  `closes1`/`closes2` are the close columns
of the two OHLCV frames.  The EMA, RSI-divergence and open-interest filter
evaluations depend on pandas-ta/scipy numerics; they are abstracted as oracles
`emaEval`/`rsiEval`/`oiEval` giving, per signal direction, the boolean each
composed filter expression of the source would produce.  `oi1` is the
open-interest argument whose `is not None` test gates the OI filter. -/
def analyze_pair (sp : StrategyParams) (flags : FilterFlags)
    (sqrtFn : ℚ → ℚ) (closes1 closes2 : List ℚ)
    (emaEval rsiEval oiEval : String → Bool) (oi1 : Option ℚ) : PairAnalysis :=
  let spread := calc_spread closes1 closes2
  let zs := calc_zscore sqrtFn sp.zscoreWindow spread
  let zscore : ℚ :=
    match zs.getLast? with
    | some (some z) => z
    | some none => 0
    | none => 0
  let signal := get_zscore_signal sp zscore
  let exitReason := check_exit sp zscore
  let emaOk :=
    match signal with
    | some s => if flags.useEmaFilter then emaEval s else true
    | none => true
  let rsiOk :=
    match signal with
    | some s => if flags.useRsiFilter then rsiEval s else true
    | none => true
  let oiOk :=
    match signal with
    | some s => if flags.useOiFilter ∧ oi1.isSome then oiEval s else true
    | none => true
  { signal := signal
    zscore := zscore
    emaOk := emaOk
    rsiOk := rsiOk
    oiOk := oiOk
    exit := exitReason }

/-- The analysis dict after bot.analyze_sector adds sector/symbol1/symbol2. -/
structure AnalysisRecord where
  signal : Option String
  zscore : ℚ
  emaOk : Bool
  rsiOk : Bool
  oiOk : Bool
  exit : Option String
  sector : String
  symbol1 : String
  symbol2 : String
deriving DecidableEq

/-- The pair id `f"{sector}_{symbol1}_{symbol2}"` built in run_cycle and in
check_funding_and_execute. -/
def pairLegId (a : AnalysisRecord) : String :=
  a.sector ++ "_" ++ a.symbol1 ++ "_" ++ a.symbol2

/-- Outcomes of the four Market Gateway calls inside the try block of
check_funding_and_execute, in call order: set_leverage on each leg, then a
market order on each leg.  `Except.error` models the call raising. -/
structure ExchangeOutcome where
  setLev1 : Except String Unit
  setLev2 : Except String Unit
  order1 : Except String Unit
  order2 : Except String Unit

/-- The sequencing of the four calls in the try block: a raise in any call
short-circuits the rest, exactly as Python control flow does. -/
def ordersOutcome (ex : ExchangeOutcome) : Except String Unit := do
  let _ ← ex.setLev1
  let _ ← ex.setLev2
  let _ ← ex.order1
  let _ ← ex.order2

/-- Data fetched by check_funding_and_execute before the try block: the two
funding rates (percent, `none` when the handler returned None) and the two
ticker last prices (already coerced by `float(t.get("last", 0) or 0)`),
plus the gateway outcomes of the try block. -/
structure EntryContext where
  fr1 : Option ℚ
  fr2 : Option ℚ
  price1 : ℚ
  price2 : ℚ
  exch : ExchangeOutcome

/-- PairsTradingBot.check_funding_and_execute: returns the Python boolean
result together with the registry after the attempt.  The funding rates are
coalesced with `fr or 0` before the check, and the side strings passed to
check_funding_rate are "buy"/"sell" exactly as in the source. -/
def check_funding_and_execute (rm : RiskParams) (a : AnalysisRecord)
    (equity positionsValue : ℚ) (ctx : EntryContext) (reg : Registry) :
    Bool × Registry :=
  match a.signal with
  | none => (false, reg)
  | some signal =>
    if !(a.emaOk && a.rsiOk && a.oiOk) then (false, reg)
    else
      let side1 := if signal = "long_short" then "buy" else "sell"
      let side2 := if signal = "long_short" then "sell" else "buy"
      if !(check_funding_rate rm (some (ctx.fr1.getD 0)) side1 &&
           check_funding_rate rm (some (ctx.fr2.getD 0)) side2) then
        (false, reg)
      else if ctx.price1 ≤ 0 ∨ ctx.price2 ≤ 0 then (false, reg)
      else
        let size1 := calc_position_size rm equity ctx.price1 none
        let size2 := calc_position_size rm equity ctx.price2 none
        let tradeValue := size1 * ctx.price1 + size2 * ctx.price2
        if !(check_basket_risk rm equity positionsValue tradeValue) then
          (false, reg)
        else
          match ordersOutcome ctx.exch with
          | Except.error _ => (false, reg)
          | Except.ok _ =>
            let pairId := pairLegId a
            let reg1 := register_position reg pairId a.symbol1 side1
              ctx.price1 a.zscore size1
            let reg2 := register_position reg1 (pairId ++ "_2") a.symbol2 side2
              ctx.price2 a.zscore size2
            (true, reg2)

/-- PairsTradingBot.check_exits_and_trailing: returns "position closed" and
the updated registry.  `price1`/`price2` are the ticker prices fetched in the
trailing branch.  Gateway close orders do not touch the registry and are not
modelled.  The Python `if update_trailing(..) or update_trailing(.._2):`
treats both None and False as falsy and short-circuits, as here. -/
def check_exits_and_trailing (rm : RiskParams) (a : AnalysisRecord)
    (pairId : String) (price1 price2 : ℚ) (reg : Registry) :
    Bool × Registry :=
  match a.exit with
  | some _ => (true, regRemove (regRemove reg pairId) (pairId ++ "_2"))
  | none =>
    let u1 := update_trailing rm reg pairId price1 a.zscore
    if u1.1 = some true then
      (true, regRemove (regRemove u1.2 pairId) (pairId ++ "_2"))
    else
      let u2 := update_trailing rm u1.2 (pairId ++ "_2") price2 a.zscore
      if u2.1 = some true then
        (true, regRemove (regRemove u2.2 pairId) (pairId ++ "_2"))
      else (false, u2.2)

/-- Outcome of processing one analysis result inside run_cycle's final loop:
the registry afterwards, whether check_funding_and_execute was invoked, and
its boolean result when it was. -/
structure PairStep where
  registry : Registry
  entryInvoked : Bool
  entryResult : Bool
deriving DecidableEq

/-- The per-pair dispatch of PairsTradingBot.run_cycle (bot.py lines 243-255):
derive the pair id; if either leg id is registered, evaluate
check_exits_and_trailing and `continue` only when it closed; then, whenever
the analysis has a truthy signal and no exit, invoke
check_funding_and_execute.  `entryInvoked` records that invocation. -/
def run_cycle_pair (rm : RiskParams) (a : AnalysisRecord)
    (equity positionsValue price1 price2 : ℚ) (ctx : EntryContext)
    (reg : Registry) : PairStep :=
  let pairId := pairLegId a
  if regContains reg pairId || regContains reg (pairId ++ "_2") then
    let ct := check_exits_and_trailing rm a pairId price1 price2 reg
    if ct.1 then
      { registry := ct.2, entryInvoked := false, entryResult := false }
    else if a.signal.isSome ∧ a.exit = none then
      let e := check_funding_and_execute rm a equity positionsValue ctx ct.2
      { registry := e.2, entryInvoked := true, entryResult := e.1 }
    else { registry := ct.2, entryInvoked := false, entryResult := false }
  else if a.signal.isSome ∧ a.exit = none then
    let e := check_funding_and_execute rm a equity positionsValue ctx reg
    { registry := e.2, entryInvoked := true, entryResult := e.1 }
  else { registry := reg, entryInvoked := false, entryResult := false }

/-!
Theorems about the embedded program.
-/

/-- C5: get_zscore_signal returns short_long iff z > entry_threshold,
long_short iff z < -entry_threshold, none otherwise; both boundary values
themselves yield none (the boundary is exclusive), for any positive entry
threshold such as the default 1.2. -/
theorem C5_zscore_signal_boundary (sp : StrategyParams) (z : ℚ)
    (h : 0 < sp.zscoreEntry) :
    (get_zscore_signal sp z = some "short_long" ↔ sp.zscoreEntry < z) ∧
    (get_zscore_signal sp z = some "long_short" ↔ z < -sp.zscoreEntry) ∧
    (get_zscore_signal sp z = none ↔
      (¬ sp.zscoreEntry < z ∧ ¬ z < -sp.zscoreEntry)) ∧
    get_zscore_signal sp sp.zscoreEntry = none ∧
    get_zscore_signal sp (-sp.zscoreEntry) = none := by
  have hs : ("short_long" : String) ≠ "long_short" := by decide
  refine ⟨?_, ?_, ?_, ?_, ?_⟩
  · unfold get_zscore_signal
    split_ifs with h1 h2 <;> simp_all <;> linarith
  · unfold get_zscore_signal
    split_ifs with h1 h2 <;> simp_all <;> linarith
  · unfold get_zscore_signal
    split_ifs with h1 h2 <;> simp_all <;> linarith
  · unfold get_zscore_signal
    split_ifs with h1 h2 <;> simp_all <;> linarith
  · unfold get_zscore_signal
    split_ifs with h1 h2 <;> simp_all <;> linarith

/-- C5 witness: at the default threshold 1.2 and z = 2 the theorem applies and
yields the short_long characterization. -/
theorem C5_witness :
    0 < defaultStrategy.zscoreEntry ∧
    (get_zscore_signal defaultStrategy 2 = some "short_long" ↔
      defaultStrategy.zscoreEntry < 2) :=
  ⟨by norm_num [defaultStrategy],
   (C5_zscore_signal_boundary defaultStrategy 2
     (by norm_num [defaultStrategy])).1⟩

/-- C6: check_exit returns tp iff the z-score is within 0.1 of the tp target;
otherwise it returns sl iff z ≥ sl_threshold or z ≤ -sl_threshold; otherwise
none.  The tp characterization is unconditional, so tp wins whenever both
conditions hold. -/
theorem C6_exit_rule (sp : StrategyParams) (z : ℚ) :
    (check_exit sp z = some "tp" ↔ |z - sp.zscoreExitTp| < 1/10) ∧
    (check_exit sp z = some "sl" ↔
      (¬ |z - sp.zscoreExitTp| < 1/10 ∧
       (sp.zscoreExitSl ≤ z ∨ z ≤ -sp.zscoreExitSl))) ∧
    (check_exit sp z = none ↔
      (¬ |z - sp.zscoreExitTp| < 1/10 ∧
       ¬ (sp.zscoreExitSl ≤ z ∨ z ≤ -sp.zscoreExitSl))) := by
  have hs : ("tp" : String) ≠ "sl" := by decide
  refine ⟨?_, ?_, ?_⟩
  · unfold check_exit
    split_ifs with h1 h2 <;> simp_all
  · unfold check_exit
    split_ifs with h1 h2 <;> simp_all
  · unfold check_exit
    split_ifs with h1 h2 <;> simp_all

/-- C7 counterexample: at risk_pct = 0 the code substitutes the configured
default 1.0 (Python `risk_pct or self.risk_per_trade_pct`) and returns 10,
while the claimed closed formula evaluates to 0. -/
theorem C7_risk_pct_zero_counterexample :
    calc_position_size defaultRisk 10000 100 (some 0) = 10 ∧
    max 0 (10000 * ((0:ℚ)/100) / 2 / (5/100) / 100) = 0 := by
  constructor
  · norm_num [calc_position_size, defaultRisk]
  · norm_num

/-- C7 amended: for every nonzero risk_pct the claimed formula holds (and the
result is 0 for non-positive price, 10 on the 10000/100/1.0 example); at
risk_pct = 0 the configured risk_per_trade_pct is substituted instead. -/
theorem C7_position_size_formula (rm : RiskParams) (equity price riskPct : ℚ)
    (h : riskPct ≠ 0) :
    (0 < price → calc_position_size rm equity price (some riskPct) =
      max 0 (equity * (riskPct / 100) / 2 / (5/100) / price)) ∧
    (price ≤ 0 → calc_position_size rm equity price (some riskPct) = 0) ∧
    calc_position_size rm 10000 100 (some 1) = 10 := by
  refine ⟨?_, ?_, ?_⟩
  · intro hp
    simp [calc_position_size, h, hp]
  · intro hp
    have hnp : ¬ price > 0 := by linarith
    simp [calc_position_size, h, hnp]
  · norm_num [calc_position_size]

/-- C7 witness: the amended theorem applied at the spec's worked example. -/
theorem C7_witness :
    (1:ℚ) ≠ 0 ∧ calc_position_size defaultRisk 10000 100 (some 1) = 10 :=
  ⟨one_ne_zero, (C7_position_size_formula defaultRisk 10000 100 1 one_ne_zero).2.2⟩

/-- C8: for positive equity, check_basket_risk accepts exactly when the
exposure percentage is within the cap; for non-positive equity the exposure
is treated as 0 and the check always passes (for any non-negative cap, such
as the default 40); the spec's 10000/3000/1500 example is rejected. -/
theorem C8_basket_risk (rm : RiskParams) (equity ov nv : ℚ)
    (hcap : 0 ≤ rm.maxBasketRiskPct) :
    (0 < equity → (check_basket_risk rm equity ov nv = true ↔
      (ov + nv) / equity * 100 ≤ rm.maxBasketRiskPct)) ∧
    (equity ≤ 0 → check_basket_risk rm equity ov nv = true) ∧
    check_basket_risk defaultRisk 10000 3000 1500 = false := by
  refine ⟨?_, ?_, ?_⟩
  · intro hp
    simp [check_basket_risk, hp]
  · intro hp
    have hnp : ¬ equity > 0 := by linarith
    simp [check_basket_risk, hnp, hcap]
  · norm_num [check_basket_risk, defaultRisk]

/-- C8 witness: the theorem applied at the spec's worked example with the
default 40 percent cap. -/
theorem C8_witness :
    (0:ℚ) ≤ defaultRisk.maxBasketRiskPct ∧
    check_basket_risk defaultRisk 10000 3000 1500 = false :=
  ⟨by norm_num [defaultRisk],
   (C8_basket_risk defaultRisk 10000 3000 1500
     (by norm_num [defaultRisk])).2.2⟩

/-- Registry of the C4 trailing-stop scenario after registering the long leg
at entry price 100 (spec §8 trailing example). -/
def C4_reg0 : Registry := register_position [] "P" "SOL" "long" 100 (-3/2) 10

/-- Registry after the activation call at z = 0 and price 110 (ratchets
best_price to 110 and activates trailing). -/
def C4_reg1 : Registry := (update_trailing defaultRisk C4_reg0 "P" 110 0).2

/-- The C4 scenario's position after activation. -/
lemma C4_reg1_eq : C4_reg1 =
    [("P", { symbol := "SOL", side := "long", entryPrice := 100,
             entryZscore := -3/2, amount := 10, trailingActivated := true,
             bestPrice := 110 })] := by
  norm_num [C4_reg1, C4_reg0, register_position, regSet, update_trailing,
    regLookup, defaultRisk, max_def]

/-- C4 counterexample: in the activated scenario (entry 100, trailing 1.5,
best 110) the stop level is 110 - 100 × 1.5% = 108.5, so price 108.4 also
hits the stop and update_trailing returns true, where the claim expects
false. -/
theorem C4_stop_also_hit_at_108_40 :
    (update_trailing defaultRisk C4_reg1 "P" 108.4 1).1 = some true := by
  norm_num [C4_reg1_eq, update_trailing, regLookup, defaultRisk, abs_le]

/-- C4 amended: the activation call returns false and ratchets best_price to
110 with trailing activated; the subsequent call at 108.35 hits the stop
(true); a call at 108.6, above the stop level 108.5 computed from the entry
price, does not (false). -/
theorem C4_trailing_scenario :
    (update_trailing defaultRisk C4_reg0 "P" 110 0).1 = some false ∧
    (regLookup C4_reg1 "P").map
      (fun p => (p.trailingActivated, p.bestPrice)) = some (true, 110) ∧
    (update_trailing defaultRisk C4_reg1 "P" 108.35 1).1 = some true ∧
    (update_trailing defaultRisk C4_reg1 "P" 108.6 1).1 = some false := by
  refine ⟨?_, ?_, ?_, ?_⟩
  · norm_num [C4_reg0, register_position, regSet, update_trailing, regLookup,
      defaultRisk, max_def]
  · norm_num [C4_reg1_eq, regLookup]
  · norm_num [C4_reg1_eq, update_trailing, regLookup, defaultRisk, abs_le]
  · norm_num [C4_reg1_eq, update_trailing, regLookup, defaultRisk, abs_le]

/-- With side "buy" the funding check matches neither the "long" nor the
"short" branch and always passes, whatever the funding rate. -/
lemma check_funding_rate_buy (rm : RiskParams) (f : ℚ) :
    check_funding_rate rm (some f) "buy" = true := by
  simp +decide [check_funding_rate]

/-- With side "sell" the funding check matches neither branch and always
passes, whatever the funding rate. -/
lemma check_funding_rate_sell (rm : RiskParams) (f : ℚ) :
    check_funding_rate rm (some f) "sell" = true := by
  simp +decide [check_funding_rate]

/-- Analysis record of the C2 scenario: a valid long_short signal with all
filters passing. -/
def C2_analysis : AnalysisRecord :=
  { signal := some "long_short", zscore := -3/2, emaOk := true, rsiOk := true,
    oiOk := true, exit := none, sector := "L1", symbol1 := "SOL",
    symbol2 := "AVAX" }

/-- Entry context of the C2 scenario: the bought leg's funding rate is 0.07
percent, above the default 0.06 cap; prices are valid and all gateway calls
succeed. -/
def C2_ctx : EntryContext :=
  { fr1 := some (7/100), fr2 := some 0, price1 := 100, price2 := 50,
    exch := ⟨Except.ok (), Except.ok (), Except.ok (), Except.ok ()⟩ }

/-- C2: the funding cap is exceeded on the leg to be bought (0.07 > 0.06),
and check_funding_rate would reject side "long", but the entry path passes
side "buy"/"sell", which check_funding_rate matches against neither of its
"long"/"short" branches; the entry therefore proceeds: it returns true and
registers positions, contradicting the claimed rejection. -/
theorem C2_funding_filter_never_rejects :
    defaultRisk.maxFundingRatePct < 7/100 ∧
    check_funding_rate defaultRisk (some (7/100)) "long" = false ∧
    check_funding_rate defaultRisk (some (7/100)) "buy" = true ∧
    (check_funding_and_execute defaultRisk C2_analysis 10000 0 C2_ctx []).1
      = true ∧
    (check_funding_and_execute defaultRisk C2_analysis 10000 0 C2_ctx []).2
      ≠ [] := by
  have hb : check_basket_risk defaultRisk 10000 0
      (calc_position_size defaultRisk 10000 100 none * 100 +
       calc_position_size defaultRisk 10000 50 none * 50) = true := by
    norm_num [check_basket_risk, calc_position_size, defaultRisk]
  have hp : ¬((100:ℚ) ≤ 0 ∨ (50:ℚ) ≤ 0) := by norm_num
  refine ⟨by norm_num [defaultRisk], ?_, check_funding_rate_buy _ _, ?_, ?_⟩
  · norm_num [check_funding_rate, defaultRisk]
  · simp +decide [check_funding_and_execute, C2_analysis, C2_ctx,
      check_funding_rate_buy, check_funding_rate_sell, hb, hp,
      ordersOutcome, bind, Except.bind, pure, Except.pure]
  · simp +decide [check_funding_and_execute, C2_analysis, C2_ctx,
      check_funding_rate_buy, check_funding_rate_sell, hb, hp,
      ordersOutcome, bind, Except.bind, pure, Except.pure,
      pairLegId, register_position, regSet]

/-- C9: whenever the sequenced leverage/order gateway calls of the try block
raise, check_funding_and_execute returns false and the registry is returned
exactly as it was: no leg is registered, because both register_position
calls come after all four gateway calls succeed. -/
theorem C9_failed_orders_leave_registry_unchanged (rm : RiskParams)
    (a : AnalysisRecord) (equity pv : ℚ) (ctx : EntryContext) (reg : Registry)
    (e : String) (h : ordersOutcome ctx.exch = Except.error e) :
    check_funding_and_execute rm a equity pv ctx reg = (false, reg) := by
  unfold check_funding_and_execute
  rw [h]
  cases a.signal with
  | none => rfl
  | some s =>
    dsimp only
    split_ifs <;> rfl

/-- Analysis record of the C9 witness scenario. -/
def C9_analysis : AnalysisRecord :=
  { signal := some "short_long", zscore := 2, emaOk := true, rsiOk := true,
    oiOk := true, exit := none, sector := "L2", symbol1 := "ARB",
    symbol2 := "OP" }

/-- Entry context of the C9 witness scenario: the first market order raises. -/
def C9_ctx : EntryContext :=
  { fr1 := some 0, fr2 := some 0, price1 := 2, price2 := 3,
    exch := ⟨Except.ok (), Except.ok (), Except.error "boom", Except.ok ()⟩ }

/-- A registry with one unrelated open leg, to witness that it is untouched. -/
def C9_reg : Registry :=
  [("L1_SOL_AVAX", { symbol := "SOL", side := "buy", entryPrice := 100,
                     entryZscore := 2, amount := 10 })]

/-- C9 witness: with the first market order raising, the entry attempt
returns false and the registry is unchanged. -/
theorem C9_witness :
    ordersOutcome C9_ctx.exch = Except.error "boom" ∧
    check_funding_and_execute defaultRisk C9_analysis 10000 0 C9_ctx C9_reg
      = (false, C9_reg) :=
  ⟨rfl, C9_failed_orders_leave_registry_unchanged defaultRisk C9_analysis
    10000 0 C9_ctx C9_reg "boom" rfl⟩

/-- Open long-leg position of the C1 scenario, registered under the pair-leg
id with side "buy" as the entry path records it. -/
def C1_pos : PositionState :=
  { symbol := "SOL", side := "buy", entryPrice := 100, entryZscore := 3/2,
    amount := 10 }

/-- Registry of the C1 scenario: the pair's leg-1 id is present, so the pair
is open. -/
def C1_reg : Registry := [("L1_SOL_AVAX", C1_pos)]

/-- Analysis record of the C1 scenario: a fresh short_long signal (z = 1.5)
with no exit flagged while the pair is still open. -/
def C1_analysis : AnalysisRecord :=
  { signal := some "short_long", zscore := 3/2, emaOk := true, rsiOk := true,
    oiOk := true, exit := none, sector := "L1", symbol1 := "SOL",
    symbol2 := "AVAX" }

/-- Entry context of the C1 scenario: benign funding, valid prices, all
gateway calls succeed. -/
def C1_ctx : EntryContext :=
  { fr1 := some 0, fr2 := some 0, price1 := 100, price2 := 50,
    exch := ⟨Except.ok (), Except.ok (), Except.ok (), Except.ok ()⟩ }

/-- C1 counterexample: the pair is open (its leg-1 id is registered), the
exit/trailing evaluation does not close it (exit is none and trailing is not
activated at |z| = 1.5 > 0.5), and run_cycle falls through to the entry path:
check_funding_and_execute is invoked for the open pair in the same cycle. -/
theorem C1_entry_invoked_for_open_pair :
    regContains C1_reg (pairLegId C1_analysis) = true ∧
    (check_exits_and_trailing defaultRisk C1_analysis (pairLegId C1_analysis)
      100 50 C1_reg).1 = false ∧
    (run_cycle_pair defaultRisk C1_analysis 10000 0 100 50 C1_ctx
      C1_reg).entryInvoked = true := by
  have hpid : pairLegId C1_analysis = "L1_SOL_AVAX" := by
    simp +decide [pairLegId, C1_analysis]
  have hc : regContains C1_reg "L1_SOL_AVAX" = true := by
    simp +decide [C1_reg, regContains, regLookup]
  have hut1 : update_trailing defaultRisk C1_reg "L1_SOL_AVAX" 100 (3/2)
      = (none, C1_reg) := by
    norm_num [update_trailing, C1_reg, C1_pos, regLookup, regSet, defaultRisk,
      abs_le]
  have hut2 : update_trailing defaultRisk C1_reg "L1_SOL_AVAX_2" 50 (3/2)
      = (none, C1_reg) := by
    simp +decide [update_trailing, C1_reg, regLookup]
  have hex : C1_analysis.exit = none := rfl
  have hz : C1_analysis.zscore = 3/2 := rfl
  have hct : check_exits_and_trailing defaultRisk C1_analysis "L1_SOL_AVAX"
      100 50 C1_reg = (false, C1_reg) := by
    simp +decide [check_exits_and_trailing, hex, hz, hut1, hut2]
  have hsig : C1_analysis.signal = some "short_long" := rfl
  refine ⟨hpid ▸ hc, hpid ▸ (by rw [hct]), ?_⟩
  simp only [run_cycle_pair, hpid, hc, hct, hex, hsig, Bool.true_or,
    if_true]
  simp

/-- C1 amended: within one cycle, for an open pair (either leg id present),
the entry path is not invoked exactly when the exit/trailing evaluation
closes the position; when the evaluation leaves the position open, run_cycle
falls through and invokes check_funding_and_execute whenever the analysis
has a signal and no exit. -/
theorem C1_no_entry_when_evaluation_closes (rm : RiskParams)
    (a : AnalysisRecord) (equity pv p1 p2 : ℚ) (ctx : EntryContext)
    (reg : Registry)
    (hopen : (regContains reg (pairLegId a)
      || regContains reg (pairLegId a ++ "_2")) = true) :
    ((check_exits_and_trailing rm a (pairLegId a) p1 p2 reg).1 = true →
      (run_cycle_pair rm a equity pv p1 p2 ctx reg).entryInvoked = false) ∧
    ((check_exits_and_trailing rm a (pairLegId a) p1 p2 reg).1 = false →
      a.signal.isSome = true → a.exit = none →
      (run_cycle_pair rm a equity pv p1 p2 ctx reg).entryInvoked = true) := by
  constructor
  · intro hclosed
    simp only [run_cycle_pair, hopen, hclosed, if_true]
  · intro hnc hsig hex
    simp only [run_cycle_pair, hopen, hnc, hsig, hex, if_true]
    simp

/-- Analysis record of the C1 witness scenario: a tp exit is flagged, so the
exit evaluation closes the open pair. -/
def C1w_analysis : AnalysisRecord :=
  { signal := none, zscore := 0, emaOk := true, rsiOk := true, oiOk := true,
    exit := some "tp", sector := "L1", symbol1 := "SOL", symbol2 := "AVAX" }

/-- C1 witness: for the open pair whose evaluation closes it (tp exit), the
entry path is not invoked. -/
theorem C1_witness :
    (regContains C1_reg (pairLegId C1w_analysis)
      || regContains C1_reg (pairLegId C1w_analysis ++ "_2")) = true ∧
    (check_exits_and_trailing defaultRisk C1w_analysis
      (pairLegId C1w_analysis) 100 50 C1_reg).1 = true ∧
    (run_cycle_pair defaultRisk C1w_analysis 10000 0 100 50 C1_ctx
      C1_reg).entryInvoked = false :=
  ⟨by decide, by decide,
   (C1_no_entry_when_evaluation_closes defaultRisk C1w_analysis 10000 0 100 50
     C1_ctx C1_reg (by decide)).1 (by decide)⟩

/-- The reindexed first series always has the length of the target index. -/
lemma reindexFfillBfill_length (xs : List ℚ) (n : ℕ) :
    (reindexFfillBfill xs n).length = n := by
  unfold reindexFfillBfill
  cases xs.getLast? <;> simp

/-- The spread series has the length of the second close series. -/
lemma calc_spread_length (c1 c2 : List ℚ) :
    (calc_spread c1 c2).length = c2.length := by
  unfold calc_spread
  rw [List.length_zipWith, reindexFfillBfill_length, min_self]

/-- On a nonempty series shorter than the window, the final rolling z-score
entry is NaN (`none`): the window is never full. -/
lemma calc_zscore_getLast?_of_short (sqrtFn : ℚ → ℚ) (w : ℕ)
    (xs : List (Option ℚ)) (hlen : xs.length < w) (hne : xs.length ≠ 0) :
    (calc_zscore sqrtFn w xs).getLast? = some none := by
  unfold calc_zscore
  rw [List.getLast?_eq_getElem?]
  simp only [List.length_map, List.length_range]
  rw [List.getElem?_map, List.getElem?_range (by omega)]
  have h2 : rollingWindow xs w (xs.length - 1) = none := by
    unfold rollingWindow
    rw [if_pos (by omega)]
  by_cases hw : w ≤ 1
  · simp [hw]
  · simp [hw, h2]

/-- On input whose second series is shorter than the window, analyze_pair's
z-score is coerced to 0. -/
lemma analyze_pair_zscore_of_short (sp : StrategyParams) (flags : FilterFlags)
    (sqrtFn : ℚ → ℚ) (c1 c2 : List ℚ) (emaEval rsiEval oiEval : String → Bool)
    (oi1 : Option ℚ) (h : c2.length < sp.zscoreWindow) :
    (analyze_pair sp flags sqrtFn c1 c2 emaEval rsiEval oiEval oi1).zscore
      = 0 := by
  unfold analyze_pair
  by_cases h0 : c2.length = 0
  · have hs : calc_spread c1 c2 = [] := by
      rw [← List.length_eq_zero, calc_spread_length]
      exact h0
    simp [hs, calc_zscore]
  · have hlast := calc_zscore_getLast?_of_short sqrtFn sp.zscoreWindow
      (calc_spread c1 c2) (by rw [calc_spread_length]; exact h)
      (by rw [calc_spread_length]; exact h0)
    simp [hlast]

/-- The signal field of analyze_pair is the z-score signal of its z-score
field. -/
lemma analyze_pair_signal_eq (sp : StrategyParams) (flags : FilterFlags)
    (sqrtFn : ℚ → ℚ) (c1 c2 : List ℚ) (emaEval rsiEval oiEval : String → Bool)
    (oi1 : Option ℚ) :
    (analyze_pair sp flags sqrtFn c1 c2 emaEval rsiEval oiEval oi1).signal =
      get_zscore_signal sp
        (analyze_pair sp flags sqrtFn c1 c2 emaEval rsiEval oiEval oi1).zscore
    := rfl

/-- The exit field of analyze_pair is check_exit of its z-score field. -/
lemma analyze_pair_exit_eq (sp : StrategyParams) (flags : FilterFlags)
    (sqrtFn : ℚ → ℚ) (c1 c2 : List ℚ) (emaEval rsiEval oiEval : String → Bool)
    (oi1 : Option ℚ) :
    (analyze_pair sp flags sqrtFn c1 c2 emaEval rsiEval oiEval oi1).exit =
      check_exit sp
        (analyze_pair sp flags sqrtFn c1 c2 emaEval rsiEval oiEval oi1).zscore
    := rfl

/-- The ema_ok field is computed from the signal field exactly as in the
source: left at true unless a signal is present and the filter enabled. -/
lemma analyze_pair_emaOk_eq (sp : StrategyParams) (flags : FilterFlags)
    (sqrtFn : ℚ → ℚ) (c1 c2 : List ℚ) (emaEval rsiEval oiEval : String → Bool)
    (oi1 : Option ℚ) :
    (analyze_pair sp flags sqrtFn c1 c2 emaEval rsiEval oiEval oi1).emaOk =
      (match (analyze_pair sp flags sqrtFn c1 c2 emaEval rsiEval oiEval
          oi1).signal with
       | some s => if flags.useEmaFilter then emaEval s else true
       | none => true) := rfl

/-- The rsi_ok field is computed from the signal field exactly as in the
source. -/
lemma analyze_pair_rsiOk_eq (sp : StrategyParams) (flags : FilterFlags)
    (sqrtFn : ℚ → ℚ) (c1 c2 : List ℚ) (emaEval rsiEval oiEval : String → Bool)
    (oi1 : Option ℚ) :
    (analyze_pair sp flags sqrtFn c1 c2 emaEval rsiEval oiEval oi1).rsiOk =
      (match (analyze_pair sp flags sqrtFn c1 c2 emaEval rsiEval oiEval
          oi1).signal with
       | some s => if flags.useRsiFilter then rsiEval s else true
       | none => true) := rfl

/-- The oi_ok field is computed from the signal field exactly as in the
source. -/
lemma analyze_pair_oiOk_eq (sp : StrategyParams) (flags : FilterFlags)
    (sqrtFn : ℚ → ℚ) (c1 c2 : List ℚ) (emaEval rsiEval oiEval : String → Bool)
    (oi1 : Option ℚ) :
    (analyze_pair sp flags sqrtFn c1 c2 emaEval rsiEval oiEval oi1).oiOk =
      (match (analyze_pair sp flags sqrtFn c1 c2 emaEval rsiEval oiEval
          oi1).signal with
       | some s => if flags.useOiFilter ∧ oi1.isSome then oiEval s else true
       | none => true) := rfl

/-- C3 counterexample: on three-bar series (shorter than the default window
20), analyze_pair returns signal none as claimed but exit "tp", not none:
the coerced z-score 0 satisfies |0 - tp_target| < 0.1 with the default tp
target 0.0. -/
theorem C3_short_series_counterexample :
    (analyze_pair defaultStrategy ⟨false, false, false⟩ (fun _ => 0)
      [1, 2, 3] [1, 2, 3] (fun _ => true) (fun _ => true) (fun _ => true)
      none).signal = none ∧
    ¬ (analyze_pair defaultStrategy ⟨false, false, false⟩ (fun _ => 0)
      [1, 2, 3] [1, 2, 3] (fun _ => true) (fun _ => true) (fun _ => true)
      none).exit = none := by
  have hz := analyze_pair_zscore_of_short defaultStrategy ⟨false, false, false⟩
    (fun _ => 0) [1, 2, 3] [1, 2, 3] (fun _ => true) (fun _ => true)
    (fun _ => true) none (by norm_num [defaultStrategy])
  constructor
  · rw [analyze_pair_signal_eq, hz]
    norm_num [get_zscore_signal, defaultStrategy]
  · rw [analyze_pair_exit_eq, hz]
    norm_num [check_exit, defaultStrategy]
    simp

/-- C3 amended: for every pair of input series shorter than the z-score
window, analyze_pair (a total function, hence raising no error) returns
signal none, and exit "tp" rather than none, under the default configuration
with tp target 0.0: the NaN z-score is coerced to 0, which yields no signal
but satisfies the take-profit window around 0. -/
theorem C3_short_series_degrades (c1 c2 : List ℚ) (flags : FilterFlags)
    (sqrtFn : ℚ → ℚ) (emaEval rsiEval oiEval : String → Bool)
    (oi1 : Option ℚ)
    (h1 : c1.length < defaultStrategy.zscoreWindow)
    (h2 : c2.length < defaultStrategy.zscoreWindow) :
    (analyze_pair defaultStrategy flags sqrtFn c1 c2 emaEval rsiEval oiEval
      oi1).signal = none ∧
    (analyze_pair defaultStrategy flags sqrtFn c1 c2 emaEval rsiEval oiEval
      oi1).exit = some "tp" := by
  have hz := analyze_pair_zscore_of_short defaultStrategy flags sqrtFn c1 c2
    emaEval rsiEval oiEval oi1 h2
  constructor
  · rw [analyze_pair_signal_eq, hz]
    norm_num [get_zscore_signal, defaultStrategy]
  · rw [analyze_pair_exit_eq, hz]
    norm_num [check_exit, defaultStrategy]

/-- C3 witness: the amended theorem applied to two-bar series with all
filters enabled and adversarial filter oracles. -/
theorem C3_witness :
    ([(1:ℚ), 2].length < defaultStrategy.zscoreWindow) ∧
    (analyze_pair defaultStrategy ⟨true, true, true⟩ (fun _ => 1) [1, 2]
      [1, 2] (fun _ => false) (fun _ => false) (fun _ => false)
      (some 5)).signal = none ∧
    (analyze_pair defaultStrategy ⟨true, true, true⟩ (fun _ => 1) [1, 2]
      [1, 2] (fun _ => false) (fun _ => false) (fun _ => false)
      (some 5)).exit = some "tp" :=
  ⟨by norm_num [defaultStrategy],
   (C3_short_series_degrades [1, 2] [1, 2] ⟨true, true, true⟩ (fun _ => 1)
     (fun _ => false) (fun _ => false) (fun _ => false) (some 5)
     (by norm_num [defaultStrategy]) (by norm_num [defaultStrategy])).1,
   (C3_short_series_degrades [1, 2] [1, 2] ⟨true, true, true⟩ (fun _ => 1)
     (fun _ => false) (fun _ => false) (fun _ => false) (some 5)
     (by norm_num [defaultStrategy]) (by norm_num [defaultStrategy])).2⟩

/-- C10: whenever analyze_pair computes no signal, the returned ema_ok,
rsi_ok and oi_ok flags are all true, for every configuration of filter
toggles and every filter-oracle outcome: the filter blocks run only under a
present signal. -/
theorem C10_no_signal_reports_filters_true (sp : StrategyParams)
    (flags : FilterFlags) (sqrtFn : ℚ → ℚ) (c1 c2 : List ℚ)
    (emaEval rsiEval oiEval : String → Bool) (oi1 : Option ℚ)
    (h : (analyze_pair sp flags sqrtFn c1 c2 emaEval rsiEval oiEval
      oi1).signal = none) :
    (analyze_pair sp flags sqrtFn c1 c2 emaEval rsiEval oiEval oi1).emaOk
      = true ∧
    (analyze_pair sp flags sqrtFn c1 c2 emaEval rsiEval oiEval oi1).rsiOk
      = true ∧
    (analyze_pair sp flags sqrtFn c1 c2 emaEval rsiEval oiEval oi1).oiOk
      = true := by
  refine ⟨?_, ?_, ?_⟩
  · rw [analyze_pair_emaOk_eq, h]
  · rw [analyze_pair_rsiOk_eq, h]
  · rw [analyze_pair_oiOk_eq, h]

/-- C10 witness: empty input series give z-score 0, hence no signal, and all
three filter flags report true although every filter is enabled and every
filter oracle answers false. -/
theorem C10_witness :
    (analyze_pair defaultStrategy ⟨true, true, true⟩ (fun _ => 1) [] []
      (fun _ => false) (fun _ => false) (fun _ => false)
      (some 1)).signal = none ∧
    ((analyze_pair defaultStrategy ⟨true, true, true⟩ (fun _ => 1) [] []
      (fun _ => false) (fun _ => false) (fun _ => false)
      (some 1)).emaOk = true ∧
     (analyze_pair defaultStrategy ⟨true, true, true⟩ (fun _ => 1) [] []
      (fun _ => false) (fun _ => false) (fun _ => false)
      (some 1)).rsiOk = true ∧
     (analyze_pair defaultStrategy ⟨true, true, true⟩ (fun _ => 1) [] []
      (fun _ => false) (fun _ => false) (fun _ => false)
      (some 1)).oiOk = true) := by
  have hsig : (analyze_pair defaultStrategy ⟨true, true, true⟩ (fun _ => 1)
      [] [] (fun _ => false) (fun _ => false) (fun _ => false)
      (some 1)).signal = none := by
    have hz := analyze_pair_zscore_of_short defaultStrategy ⟨true, true, true⟩
      (fun _ => 1) [] [] (fun _ => false) (fun _ => false) (fun _ => false)
      (some 1) (by norm_num [defaultStrategy])
    rw [analyze_pair_signal_eq, hz]
    norm_num [get_zscore_signal, defaultStrategy]
  exact ⟨hsig, C10_no_signal_reports_filters_true defaultStrategy
    ⟨true, true, true⟩ (fun _ => 1) [] [] (fun _ => false) (fun _ => false)
    (fun _ => false) (some 1) hsig⟩

end PairsBot
